import Mathlib

/-!
Shallow embedding of the siscom AI agent system backend:
the retrying node wrapper (personalize_agent.py, generate_message_suggestions.py),
the Kafka chat endpoint and response listener (controllers/agent.py, main.py),
the worker dispatcher and batch webhook delivery (workers/agent_consumer.py),
the state schema merge policies (schemas/agent.py) and the chat workflow
graph (services/agent/multi_agents.py).
-/

namespace SiscomAgent

/-! ## Retrying node wrapper
Embeds the retry loop shared by PersonalizeNode.execute and
GenerateMessageSuggestionsNode.execute.  Constants from the source classes. -/

def MAX_ATTEMPTS : Nat := 4

def INITIAL_BACKOFF_SEC : ℚ := 0.6

def MIN_ACCEPTED_LEN : Nat := 12

/-- ASCII lowercase of one character, modelling the Python lower call on
the texts compared against the ASCII sentinel strings. -/
def lowerChar (c : Char) : Char :=
  if 65 ≤ c.toNat ∧ c.toNat ≤ 90 then Char.ofNat (c.toNat + 32) else c

/-- Lowercased character list of a string. -/
def lowerChars (s : String) : List Char := s.data.map lowerChar

/-- Embeds the method called underscore is valid on both node classes:
falsy text is rejected, the two sentinel strings are rejected,
otherwise the text must reach the minimum accepted length. -/
def is_valid (text : Option String) : Bool :=
  match text with
  | none => false
  | some t =>
    if t = "" then false
    else if lowerChars t = "(sin sugerencias)".data || lowerChars t = "sin sugerencias".data
    then false
    else decide (MIN_ACCEPTED_LEN ≤ t.length)

/-- One attempt of the loop body interacts with two external calls:
the optional tool agent (absent when initialize of the tool agent failed),
then the direct LLM call.  Each call either raises (error) or returns a
parsed suggestion string. -/
structure AttemptIO where
  tool : Option (Except String String)
  direct : Except String String
  deriving Repr

/-- Outcome of the direct-LLM stage of one attempt: a raised exception is
caught by the outer handler and becomes the last error; an invalid
suggestion sets the fixed Spanish last error message from the source. -/
def directOutcome : Except String String → Except String String
  | .error e => .error e
  | .ok raw => if is_valid (some raw) then .ok raw else .error "Respuesta vacía o no utilizable"

/-- Outcome of one whole attempt (one loop iteration): if the tool agent
returned and its parsed suggestion is valid the attempt succeeds at once;
any tool-agent failure or invalid tool output falls through to the direct
LLM call. -/
def attemptResult (io : AttemptIO) : Except String String :=
  match io.tool with
  | some (.ok raw) => if is_valid (some raw) then .ok raw else directOutcome io.direct
  | _ => directOutcome io.direct

/-- Observable events of the retry loop: a compute attempt with its
one-based index, a backoff sleep with its duration in seconds, and the
warning log of the last error after exhaustion. -/
inductive RetryEv where
  | call (attempt : Nat)
  | sleep (sec : ℚ)
  | logLastError (e : String)
  deriving DecidableEq, Repr

/-- The dictionary returned by the execute methods: keys answer and error. -/
structure NodeResult where
  answer : String
  error : Option String
  deriving DecidableEq, Repr

/-- The retry loop of the execute methods.  rem counts the attempts still
allowed after the current one; attempt is the one-based index; backoff is
the current sleep duration.  After a failed attempt that is not the last,
the loop sleeps and doubles the backoff; after the last attempt it logs
the last error and returns the default payload with error None. -/
def retryGo (io : Nat → AttemptIO) : Nat → Nat → ℚ → List RetryEv → NodeResult × List RetryEv
  | 0, attempt, _backoff, acc =>
    match attemptResult (io attempt) with
    | .ok ans => (⟨ans, none⟩, acc ++ [RetryEv.call attempt])
    | .error e => (⟨"", none⟩, acc ++ [RetryEv.call attempt, RetryEv.logLastError e])
  | rem + 1, attempt, backoff, acc =>
    match attemptResult (io attempt) with
    | .ok ans => (⟨ans, none⟩, acc ++ [RetryEv.call attempt])
    | .error _e =>
        retryGo io rem (attempt + 1) (backoff * 2)
          (acc ++ [RetryEv.call attempt, RetryEv.sleep backoff])

/-- Entry point of the retry wrapper: attempts range from 1 to
MAX_ATTEMPTS, backoff starts at INITIAL_BACKOFF_SEC. -/
def executeRetry (io : Nat → AttemptIO) : NodeResult × List RetryEv :=
  retryGo io (MAX_ATTEMPTS - 1) 1 INITIAL_BACKOFF_SEC []

/-- Recognizer for compute-call events. -/
def isCall : RetryEv → Bool
  | .call _ => true
  | _ => false

/-- An attempt environment in which every attempt fails: the tool agent is
absent and the direct LLM call raises. -/
def failIO : Nat → AttemptIO := fun _ => ⟨none, .error "boom"⟩

/-! ## Response correlator: the chat endpoint and the response listener
Embeds invoke_chat_workflow from controllers/agent.py and
response_listener from main.py over the shared pending_responses map. -/

/-- Events observable on the publish path of the chat endpoint. -/
inductive CorrEv where
  | insertPending (id : String)
  | sendBroker (topic : String) (id : String)
  deriving DecidableEq, Repr

/-- The request body of the chat endpoint; only the uuid field matters
here, with the empty string standing for a falsy caller value. -/
structure ChatRequest where
  uuid : String
  deriving Repr

/-- Embeds invoke_chat_workflow: the correlation id is the caller uuid
when truthy, else a fresh generated uuid; the message is sent to the
agent topic and the id is returned to the caller at once. -/
def invoke_chat_workflow (freshUuid : String) (agentTopic : String) (req : ChatRequest) :
    List CorrEv × String :=
  let u := if req.uuid ≠ "" then req.uuid else freshUuid
  ([CorrEv.sendBroker agentTopic u], u)

/-- Recognizer for pending-map insertion events. -/
def isInsertPending : CorrEv → Bool
  | .insertPending _ => true
  | _ => false

/-- State of one asyncio future held in the pending map. -/
inductive FutState where
  | pending
  | done
  deriving DecidableEq, Repr

/-- The shared pending_responses dictionary: correlation id to future. -/
abbrev PendingMap := List (String × FutState)

/-- Dictionary membership test. -/
def pmContains (m : PendingMap) (k : String) : Bool := m.any (fun p => p.1 == k)

/-- Dictionary lookup. -/
def pmFind (m : PendingMap) (k : String) : Option FutState :=
  (m.find? (fun p => p.1 == k)).map Prod.snd

/-- Dictionary removal, the effect of dict.pop. -/
def pmErase (m : PendingMap) (k : String) : PendingMap := m.eraseP (fun p => p.1 == k)

/-- A decoded response message: the extracted uui id field, with none for
a missing field. -/
structure RespMsg where
  uuiId : Option String
  deriving Repr

/-- Observable effect of the listener on one message. -/
inductive ListenEv where
  | resolved (id : String)
  deriving DecidableEq, Repr

/-- Embeds the per-message body of response_listener: when the extracted
uui id is truthy and present in the map the entry is popped and its
future is resolved when not already done; otherwise the message is
discarded. -/
def response_listener_step (pending : PendingMap) (msg : RespMsg) :
    PendingMap × List ListenEv :=
  match msg.uuiId with
  | some k =>
    if (k != "") && pmContains pending k then
      match pmFind pending k with
      | some FutState.pending => (pmErase pending k, [ListenEv.resolved k])
      | _ => (pmErase pending k, [])
    else (pending, [])
  | none => (pending, [])

/-- The listener wraps the body in a try block: a message that fails to
decode is logged and discarded without effect. -/
def response_listener_recv (pending : PendingMap) (raw : Except String RespMsg) :
    PendingMap × List ListenEv :=
  match raw with
  | .error _ => (pending, [])
  | .ok msg => response_listener_step pending msg

/-! ## Worker dispatcher, batch webhook delivery and chat retry
Embeds workers/agent_consumer.py: process_room_suggestion_message,
consume, process_message and the retry loop of process_chat_message. -/

/-- The webhook payloads that process_room_suggestion_message can send:
the empty-suggestion payload sent when the unit workflow reported an
error on a final message, the final error or final combined-suggestion
payloads, and the error payload sent from the outer exception handler. -/
inductive RoomPayload where
  | emptyOnUnitError
  | finalError (e : String)
  | finalSuggestion
  | exceptionError (e : String)
  deriving DecidableEq, Repr

/-- Embeds process_room_suggestion_message as the list of webhook sends.
unit is the outcome of the per-unit room workflow: error means an
exception escaped (caught by the outer handler), ok (some e) means the
workflow completed with a truthy error field e, ok none means success.
finalw is the outcome of the final analysis workflow, read the same way;
it is only run when the final-in-batch flag is set. -/
def process_room_suggestion_message (isLast : Bool)
    (unit : Except String (Option String))
    (finalw : Except String (Option String)) : List RoomPayload :=
  match unit with
  | .error e => [RoomPayload.exceptionError e]
  | .ok unitErr =>
    let first : List RoomPayload :=
      if unitErr.isSome && isLast then [RoomPayload.emptyOnUnitError] else []
    if isLast then
      match finalw with
      | .error e => first ++ [RoomPayload.exceptionError e]
      | .ok (some e) => first ++ [RoomPayload.finalError e]
      | .ok none => first ++ [RoomPayload.finalSuggestion]
    else first

/-- Events of the consume loop of the worker, in program order. -/
inductive ConsumeEv where
  | startConsumer
  | startProducer
  | spawnTask (i : Nat)
  | stopConsumer
  | stopProducer
  | gatherTasks
  deriving DecidableEq, Repr

/-- Embeds consume: start both connections, spawn one handler task per
received message, and in the finally block stop the consumer, stop the
producer and only then gather the remaining tasks. -/
def consume_trace (n : Nat) : List ConsumeEv :=
  [ConsumeEv.startConsumer, ConsumeEv.startProducer] ++
    (List.range n).map ConsumeEv.spawnTask ++
    [ConsumeEv.stopConsumer, ConsumeEv.stopProducer, ConsumeEv.gatherTasks]

/-- The injected topic names from settings. -/
structure TopicsCfg where
  agentTopic : String
  analyticsTopic : String
  roomSuggestionTopic : String
  deriving Repr

/-- Observable events of one process_message task. -/
inductive DispatchEv where
  | acquire
  | release
  | handledChat
  | handledAnalytics
  | handledRoomSuggestion
  | warnUnhandled (topic : String)
  | logException (e : String)
  deriving DecidableEq, Repr

/-- The try block of process_message: decode the message, then route by
topic to the matching handler; an unknown topic only logs a warning.  A
decode failure or a handler exception is an error of this computation. -/
def process_message_try (cfg : TopicsCfg) (topic : String)
    (decoded : Except String Unit)
    (chatH analyticsH roomH : Except String Unit) : Except String (List DispatchEv) :=
  match decoded with
  | .error e => .error e
  | .ok _ =>
    if topic = cfg.agentTopic then
      match chatH with
      | .ok _ => .ok [DispatchEv.handledChat]
      | .error e => .error e
    else if topic = cfg.analyticsTopic then
      match analyticsH with
      | .ok _ => .ok [DispatchEv.handledAnalytics]
      | .error e => .error e
    else if topic = cfg.roomSuggestionTopic then
      match roomH with
      | .ok _ => .ok [DispatchEv.handledRoomSuggestion]
      | .error e => .error e
    else .ok [DispatchEv.warnUnhandled topic]

/-- Embeds process_message: acquire the semaphore, run the try block,
catch any exception into a log event, release the semaphore. -/
def process_message (cfg : TopicsCfg) (topic : String) (decoded : Except String Unit)
    (chatH analyticsH roomH : Except String Unit) : List DispatchEv :=
  DispatchEv.acquire ::
    ((match process_message_try cfg topic decoded chatH analyticsH roomH with
      | .ok evs => evs
      | .error e => [DispatchEv.logException e]) ++ [DispatchEv.release])

/-- Worker retry constants from agent_consumer.py. -/
def MAX_WORKFLOW_RETRIES : Nat := 3

def RETRY_DELAY_SECONDS : Nat := 2

/-- The fixed failure phrases the worker looks for in generated text. -/
def WORKFLOW_FAILURE_MESSAGES : List String :=
  ["Lo siento, no pude generar una respuesta en este momento.",
   "Agent stopped due to iteration limit or time limit",
   "Lo siento, ocurrió un error interno después de varios intentos",
   "Mensaje enviado al grupo"]

/-- Whether the first list starts the second. -/
def charsStartWith : List Char → List Char → Bool
  | [], _ => true
  | _ :: _, [] => false
  | a :: as, b :: bs => a == b && charsStartWith as bs

/-- Whether the haystack contains the needle as a contiguous run. -/
def charsContain (needle : List Char) : List Char → Bool
  | [] => charsStartWith needle []
  | c :: rest => charsStartWith needle (c :: rest) || charsContain needle rest

/-- The Python substring test: sub in hay. -/
def strContains (hay sub : String) : Bool := charsContain sub.data hay.data

/-- The response mapping of one workflow invocation, restricted to the
field the retry decision reads. -/
structure WfResponse where
  list_message : Option (List String)
  deriving Repr

/-- The retry condition of process_chat_message: list_message must be a
truthy list whose first element is a truthy string containing one of the
failure phrases. -/
def should_retry (r : WfResponse) : Bool :=
  match r.list_message with
  | some (first :: _) =>
    (first != "") && WORKFLOW_FAILURE_MESSAGES.any (fun m => strContains first m)
  | _ => false

/-- Observable events of the chat worker retry loop. -/
inductive ChatEv where
  | invokeWorkflow (attempt : Nat)
  | sleepSec (n : Nat)
  | logRetriesExhausted
  deriving DecidableEq, Repr

/-- The retry loop of process_chat_message: rem counts attempts still
allowed after the current one; a non-retry response breaks out of the
loop; the loop sleeps RETRY_DELAY_SECONDS between consecutive attempts
and logs exhaustion through the for-else branch. -/
def chatRetryGo (resp : Nat → WfResponse) : Nat → Nat → List ChatEv → List ChatEv × WfResponse
  | 0, attempt, acc =>
    if should_retry (resp attempt) then
      (acc ++ [ChatEv.invokeWorkflow attempt, ChatEv.logRetriesExhausted], resp attempt)
    else (acc ++ [ChatEv.invokeWorkflow attempt], resp attempt)
  | rem + 1, attempt, acc =>
    if should_retry (resp attempt) then
      chatRetryGo resp rem (attempt + 1)
        (acc ++ [ChatEv.invokeWorkflow attempt, ChatEv.sleepSec RETRY_DELAY_SECONDS])
    else (acc ++ [ChatEv.invokeWorkflow attempt], resp attempt)

/-- Entry point of the chat worker retry loop: attempts are numbered from
0 and at most MAX_WORKFLOW_RETRIES invocations happen. -/
def process_chat_retry (resp : Nat → WfResponse) : List ChatEv × WfResponse :=
  chatRetryGo resp (MAX_WORKFLOW_RETRIES - 1) 0 []

/-! ## State schema merge policies
Embeds the InputState TypedDict of schemas/agent.py: each class-body
annotation carries either the operator.add reducer (Append) or none
(Overwrite); a repeated field name overwrites the earlier entry of the
annotations dictionary, so the last declaration wins. -/

inductive FieldPolicy where
  | overwrite
  | append
  deriving DecidableEq, Repr

/-- The class body of InputState in source order.  The answer field is
declared twice: at line 127 with Annotated str operator.add (Append) and
again at line 143 as a plain Optional str (Overwrite). -/
def inputStateDecls : List (String × FieldPolicy) :=
  [("stream_handler", FieldPolicy.overwrite),
   ("messages", FieldPolicy.overwrite),
   ("question", FieldPolicy.overwrite),
   ("conversation_summary", FieldPolicy.overwrite),
   ("room_id", FieldPolicy.overwrite),
   ("uui_id", FieldPolicy.overwrite),
   ("agent_name", FieldPolicy.overwrite),
   ("group_context", FieldPolicy.overwrite),
   ("room_details", FieldPolicy.overwrite),
   ("latest_news_summary", FieldPolicy.overwrite),
   ("question_answer_summary", FieldPolicy.overwrite),
   ("next_node", FieldPolicy.overwrite),
   ("personalize_agent", FieldPolicy.overwrite),
   ("validation_retries", FieldPolicy.overwrite),
   ("slang_context", FieldPolicy.overwrite),
   ("answer", FieldPolicy.append),
   ("agent_info", FieldPolicy.overwrite),
   ("topic", FieldPolicy.overwrite),
   ("personalize_retries", FieldPolicy.overwrite),
   ("personalize_failed", FieldPolicy.overwrite),
   ("frequent_words", FieldPolicy.overwrite),
   ("frequent_emojis", FieldPolicy.overwrite),
   ("frequent_hashtags", FieldPolicy.overwrite),
   ("rooms_created", FieldPolicy.overwrite),
   ("previous_rooms", FieldPolicy.overwrite),
   ("mentioned_users", FieldPolicy.overwrite),
   ("main_topics_group", FieldPolicy.overwrite),
   ("room_suggestion", FieldPolicy.overwrite),
   ("final_analysis", FieldPolicy.overwrite),
   ("error", FieldPolicy.overwrite),
   ("user_query", FieldPolicy.overwrite),
   ("answer", FieldPolicy.overwrite)]

/-- The effective annotation of a field: Python class-body semantics keep
the value of the last declaration of a repeated name. -/
def effectivePolicy (decls : List (String × FieldPolicy)) (k : String) : Option FieldPolicy :=
  (decls.reverse.find? (fun p => p.1 == k)).map Prod.snd

/-- The first declaration of a field in source order. -/
def declaredPolicyFirst (decls : List (String × FieldPolicy)) (k : String) : Option FieldPolicy :=
  (decls.find? (fun p => p.1 == k)).map Prod.snd

/-- The merge a channel performs under a policy: Overwrite keeps the
incoming value, Append concatenates the incoming value after the old. -/
def applyPolicy (p : FieldPolicy) (old incoming : String) : String :=
  match p with
  | .overwrite => incoming
  | .append => old ++ incoming

/-! ## The chat workflow graph
Embeds create_workflow of multi_agents.py: the node set, the
unconditional edges, the two conditional edges with their branch maps,
and a superstep executor over an untyped state with overwrite merging.
The node write-key sets are read off the return statements of the node
sources; the validator node body is absent from the repository sources,
so its outputs are left fully unconstrained. -/

/-- Python-like values as far as the selectors inspect them. -/
inductive Val where
  | vnone
  | vbool (b : Bool)
  | vstr (s : String)
  | vint (n : Int)
  deriving DecidableEq, Repr

/-- Python truthiness on the embedded values. -/
def truthy : Val → Bool
  | .vnone => false
  | .vbool b => b
  | .vstr s => s != ""
  | .vint n => n != 0

/-- The untyped run state dictionary. -/
abbrev StateMap := List (String × Val)

/-- Dictionary lookup: the first binding of the key. -/
def stGet (st : StateMap) (k : String) : Option Val :=
  (st.find? (fun p => p.1 == k)).map Prod.snd

/-- Merging a node output into the state: new bindings take priority. -/
def stMerge (st out : StateMap) : StateMap := out ++ st

/-- Embeds determine_next_node: state.get of next_node with the end
sentinel as default. -/
def determine_next_node (st : StateMap) : Val :=
  (stGet st "next_node").getD (Val.vstr "__end__")

/-- Embeds check_personalize_failure: state.get of personalize_failed
with default False, routed to personalize when truthy and to validator
otherwise. -/
def check_personalize_failure (st : StateMap) : String :=
  if truthy ((stGet st "personalize_failed").getD (Val.vbool false)) then "personalize"
  else "validator"

/-- The nodes added by create_workflow. -/
inductive GNode where
  | summarize_content
  | get_room_info
  | slang_analysis
  | orchestrator
  | personalize
  | validator
  | speech_validator
  | agent_reply_splitter
  | generate_topic_suggestions
  deriving DecidableEq, Repr

/-- The two entry edges from START. -/
def entryNodes : List GNode := [GNode.summarize_content, GNode.get_room_info]

/-- The unconditional edges of create_workflow (edges into END omitted,
END being the absence of a successor). -/
def uncondEdges : List (GNode × GNode) :=
  [(GNode.get_room_info, GNode.slang_analysis),
   (GNode.summarize_content, GNode.slang_analysis),
   (GNode.slang_analysis, GNode.orchestrator),
   (GNode.validator, GNode.speech_validator),
   (GNode.speech_validator, GNode.agent_reply_splitter)]

/-- Unconditional successors of a node. -/
def succUncond (n : GNode) : List GNode :=
  (uncondEdges.filter (fun e => e.1 == n)).map Prod.snd

/-- Unconditional predecessors of a node, the join barrier set. -/
def preds (m : GNode) : List GNode :=
  (uncondEdges.filter (fun e => e.2 == m)).map Prod.fst

/-- Routing after one node completes.  The orchestrator and personalize
nodes carry the two conditional edges with the branch maps of the
source; a selector value outside the branch map is a graph execution
error.  Any other node triggers each unconditional successor whose
predecessors have all completed.  The string list collects the values
returned by check_personalize_failure. -/
def nodeRoute (st : StateMap) (completed : List GNode) :
    GNode → Except Unit (List String × List GNode)
  | GNode.orchestrator =>
    match determine_next_node st with
    | Val.vstr s =>
      if s = "personalize" then .ok ([], [GNode.personalize])
      else if s = "__end__" then .ok ([], [])
      else .error ()
    | _ => .error ()
  | GNode.personalize =>
    let d := check_personalize_failure st
    if d = "personalize" then .ok ([d], [GNode.personalize])
    else .ok ([d], [GNode.validator])
  | n => .ok ([], (succUncond n).filter (fun m => (preds m).all (fun p => completed.contains p)))

/-- Routing for a whole frontier, in frontier order. -/
def routeAll (st : StateMap) (completed : List GNode) :
    List GNode → Except Unit (List String × List GNode)
  | [] => .ok ([], [])
  | n :: rest => do
    let r1 ← nodeRoute st completed n
    let r2 ← routeAll st completed rest
    .ok (r1.1 ++ r2.1, r1.2 ++ r2.2)

/-- Removes duplicate trigger targets within one superstep. -/
def dedupNodes : List GNode → List GNode
  | [] => []
  | n :: rest => if rest.contains n then dedupNodes rest else n :: dedupNodes rest

/-- The observable trace of one run: the values returned by the
personalize conditional selector, the executed nodes in superstep order,
and whether the run ended in a graph execution error (including the
recursion limit). -/
structure RunTrace where
  consults : List String
  executed : List GNode
  graphError : Bool
  deriving Repr

/-- The superstep executor: runs every frontier node, merges the node
outputs delivered by the oracle into the state, routes to the next
frontier, and stops on an empty frontier, a routing error or fuel
exhaustion (the recursion limit). -/
def runChatAux (oracle : Nat → GNode → StateMap) :
    Nat → Nat → StateMap → List GNode → List GNode → List GNode → List String → RunTrace
  | 0, _, _, _, _, execAcc, consAcc => ⟨consAcc, execAcc, true⟩
  | _ + 1, _, _, _, [], execAcc, consAcc => ⟨consAcc, execAcc, false⟩
  | fuel + 1, i, st, completed, n :: ns, execAcc, consAcc =>
    let st2 := (n :: ns).foldl (fun s m => stMerge s (oracle i m)) st
    let completed2 := completed ++ (n :: ns)
    match routeAll st2 completed2 (n :: ns) with
    | .error _ => ⟨consAcc, execAcc ++ (n :: ns), true⟩
    | .ok (cons, targets) =>
      runChatAux oracle fuel (i + 1) st2 completed2 (dedupNodes targets)
        (execAcc ++ (n :: ns)) (consAcc ++ cons)

/-- The recursion limit passed in the invocation config. -/
def RECURSION_LIMIT : Nat := 200

/-- A whole run of the compiled chat workflow from the entry nodes. -/
def runChat (oracle : Nat → GNode → StateMap) (init : StateMap) : RunTrace :=
  runChatAux oracle RECURSION_LIMIT 0 init [] entryNodes [] []

/-- The possible output key sets of each chat workflow node, read off the
return statements of the node sources. -/
def nodeWriteSets : GNode → List (List String)
  | GNode.summarize_content =>
    [["conversation_summary", "question", "agent_name"], ["conversation_summary"]]
  | GNode.get_room_info => [["room_details"]]
  | GNode.slang_analysis => [["slang_context"]]
  | GNode.orchestrator =>
    [["decision"], ["next_node", "agent_id_executed"],
     ["next_node", "personalize_agent", "agent_id_executed"]]
  | GNode.personalize =>
    [["conversation_summary", "question", "agent_name"], ["answer", "error"]]
  | GNode.validator => []
  | GNode.speech_validator => [["answer"]]
  | GNode.agent_reply_splitter => [["list_message"]]
  | GNode.generate_topic_suggestions => [["suggestions"], ["suggestions", "error"]]

/-- An admissible node output: its key list is one of the shapes in the
node source, except for the validator node, whose missing body leaves
its outputs fully unconstrained. -/
def validOut : GNode → StateMap → Prop
  | GNode.validator, _ => True
  | n, out => out.map Prod.fst ∈ nodeWriteSets n

/-- A concrete initial state as built by process_chat_message. -/
def wInit : StateMap :=
  [("room_id", Val.vstr "room-7"), ("messages", Val.vstr "m"),
   ("uui_id", Val.vstr "u-1")]

/-- A concrete oracle delivering one admissible output per node. -/
def wOracle : Nat → GNode → StateMap := fun _ n =>
  match n with
  | GNode.summarize_content =>
    [("conversation_summary", Val.vstr "s"), ("question", Val.vstr "q"),
     ("agent_name", Val.vstr "a")]
  | GNode.get_room_info => [("room_details", Val.vnone)]
  | GNode.slang_analysis => [("slang_context", Val.vstr "sl")]
  | GNode.orchestrator =>
    [("next_node", Val.vstr "personalize"), ("agent_id_executed", Val.vstr "7")]
  | GNode.personalize =>
    [("answer", Val.vstr "hello there"), ("error", Val.vnone)]
  | GNode.validator => [("answer", Val.vstr "hi")]
  | GNode.speech_validator => [("answer", Val.vstr "hi")]
  | GNode.agent_reply_splitter => [("list_message", Val.vstr "x")]
  | GNode.generate_topic_suggestions => [("suggestions", Val.vnone)]

/-! ## Theorems -/

theorem retryGo_calls_le (io : Nat → AttemptIO) :
    ∀ (rem att : Nat) (b : ℚ) (acc : List RetryEv),
      ((retryGo io rem att b acc).2.filter isCall).length ≤
        (acc.filter isCall).length + rem + 1 := by
  intro rem
  induction rem with
  | zero =>
    intro att b acc
    cases h : attemptResult (io att) <;>
      simp [retryGo, h, isCall, List.filter_append]
  | succ n ih =>
    intro att b acc
    cases h : attemptResult (io att) with
    | ok v =>
      simp [retryGo, h, isCall, List.filter_append]
    | error e =>
      have := ih (att + 1) (b * 2) (acc ++ [RetryEv.call att, RetryEv.sleep b])
      simp only [retryGo, h] at this ⊢
      simp [isCall, List.filter_append] at this ⊢
      omega

/-- C1: the retry wrapper of PersonalizeNode.execute and
GenerateMessageSuggestionsNode.execute makes at most MAX_ATTEMPTS = 4
compute attempts; when every attempt fails it makes exactly 4 attempts,
sleeping between consecutive attempts with a backoff starting at
INITIAL_BACKOFF_SEC = 0.6 seconds and doubling after every failed attempt
(0.6, 1.2, 2.4 seconds), with no sleep after the final attempt. -/
theorem retry_wrapper_attempts_and_backoff (io : Nat → AttemptIO) (err : Nat → String) :
    ((executeRetry io).2.filter isCall).length ≤ MAX_ATTEMPTS ∧
    ((∀ i, attemptResult (io i) = .error (err i)) →
      (executeRetry io).2 =
        [RetryEv.call 1, RetryEv.sleep INITIAL_BACKOFF_SEC,
         RetryEv.call 2, RetryEv.sleep (INITIAL_BACKOFF_SEC * 2),
         RetryEv.call 3, RetryEv.sleep (INITIAL_BACKOFF_SEC * 2 * 2),
         RetryEv.call 4, RetryEv.logLastError (err 4)]) ∧
    INITIAL_BACKOFF_SEC = 0.6 ∧
    INITIAL_BACKOFF_SEC * 2 = 1.2 ∧
    INITIAL_BACKOFF_SEC * 2 * 2 = 2.4 := by
  refine ⟨?_, ?_, rfl, by norm_num [INITIAL_BACKOFF_SEC], by norm_num [INITIAL_BACKOFF_SEC]⟩
  · have := retryGo_calls_le io (MAX_ATTEMPTS - 1) 1 INITIAL_BACKOFF_SEC []
    simpa [executeRetry, MAX_ATTEMPTS] using this
  · intro h
    simp [executeRetry, MAX_ATTEMPTS, retryGo, h 1, h 2, h 3, h 4]

/-- C1 witness: with the always-failing attempt environment the wrapper
makes exactly 4 calls with the doubling backoff trace. -/
theorem retry_wrapper_attempts_and_backoff_witness :
    ((executeRetry failIO).2.filter isCall).length ≤ MAX_ATTEMPTS ∧
    (executeRetry failIO).2 =
      [RetryEv.call 1, RetryEv.sleep INITIAL_BACKOFF_SEC,
       RetryEv.call 2, RetryEv.sleep (INITIAL_BACKOFF_SEC * 2),
       RetryEv.call 3, RetryEv.sleep (INITIAL_BACKOFF_SEC * 2 * 2),
       RetryEv.call 4, RetryEv.logLastError "boom"] := by
  have h := retry_wrapper_attempts_and_backoff failIO (fun _ => "boom")
  exact ⟨h.1, h.2.1 (fun _ => rfl)⟩

/-- C2 counterexample: with every attempt failing with error boom, the
wrapper returns answer empty and error None; the error field does not
carry the last error, contradicting the claim that the default payload is
returned together with the last error in the error field. -/
theorem retry_exhaustion_error_field_counterexample :
    (executeRetry failIO).1 = ⟨"", none⟩ ∧
    (executeRetry failIO).1 ≠ ⟨"", some "boom"⟩ := by
  constructor
  · rfl
  · intro hc
    simp [show (executeRetry failIO).1 = ⟨"", none⟩ from rfl] at hc

/-- C2 amended: when every attempt of the retry wrapper fails, the wrapper
does not raise and returns the default payload with answer the empty
string and the error field set to None; the last error is only emitted to
the log, not reported through the returned error field. -/
theorem retry_exhaustion_returns_default (io : Nat → AttemptIO) (err : Nat → String)
    (h : ∀ i, attemptResult (io i) = .error (err i)) :
    (executeRetry io).1 = ⟨"", none⟩ ∧
    (executeRetry io).1.error = none ∧
    RetryEv.logLastError (err 4) ∈ (executeRetry io).2 := by
  have htr : (executeRetry io).2 =
      [RetryEv.call 1, RetryEv.sleep INITIAL_BACKOFF_SEC,
       RetryEv.call 2, RetryEv.sleep (INITIAL_BACKOFF_SEC * 2),
       RetryEv.call 3, RetryEv.sleep (INITIAL_BACKOFF_SEC * 2 * 2),
       RetryEv.call 4, RetryEv.logLastError (err 4)] := by
    simp [executeRetry, MAX_ATTEMPTS, retryGo, h 1, h 2, h 3, h 4]
  have hres : (executeRetry io).1 = ⟨"", none⟩ := by
    simp [executeRetry, MAX_ATTEMPTS, retryGo, h 1, h 2, h 3, h 4]
  exact ⟨hres, by simp [hres], by simp [htr]⟩

/-- C2 witness: the amended statement applied to the concrete always
failing environment. -/
theorem retry_exhaustion_returns_default_witness :
    (executeRetry failIO).1 = ⟨"", none⟩ ∧
    RetryEv.logLastError "boom" ∈ (executeRetry failIO).2 := by
  have h := retry_exhaustion_returns_default failIO (fun _ => "boom") (fun _ => rfl)
  exact ⟨h.1, h.2.2⟩

theorem pmContains_exists {m : PendingMap} {k : String} (h : pmContains m k = true) :
    ∃ p ∈ m, p.1 = k := by
  simp only [pmContains, List.any_eq_true, beq_iff_eq] at h
  exact h

theorem pmContains_eq_false {m : PendingMap} {k : String}
    (h : ∀ p ∈ m, p.1 ≠ k) : pmContains m k = false := by
  simp only [pmContains, List.any_eq_false, beq_iff_eq]
  intro p hp
  exact h p hp

theorem pmContains_pmErase_self {m : PendingMap} {k : String}
    (hnodup : (m.map Prod.fst).Nodup) : pmContains (pmErase m k) k = false := by
  induction m with
  | nil => rfl
  | cons p rest ih =>
    simp only [List.map_cons, List.nodup_cons] at hnodup
    by_cases hpk : p.1 == k
    · simp only [pmErase, List.eraseP_cons, hpk, cond_true]
      refine pmContains_eq_false ?_
      intro q hq hqk
      have hpk' : p.1 = k := beq_iff_eq.mp hpk
      exact hnodup.1 (by rw [hpk', ← hqk]; exact List.mem_map_of_mem Prod.fst hq)
    · simp only [pmErase, List.eraseP_cons, hpk, cond_false, pmContains, List.any_cons,
        Bool.or_eq_false_iff]
      exact ⟨by simp_all, ih hnodup.2⟩

/-- C3 counterexample: on a concrete request the chat endpoint emits a
broker send but no pending-map insertion at all, so no PendingRequest is
created before the request message is sent. -/
theorem chat_endpoint_no_insert_counterexample :
    ((invoke_chat_workflow "11111111" "agent-topic" ⟨"abc-123"⟩).1.filter
        isInsertPending).length = 0 ∧
    (invoke_chat_workflow "11111111" "agent-topic" ⟨"abc-123"⟩).1 =
      [CorrEv.sendBroker "agent-topic" "abc-123"] := by
  exact ⟨by decide, by decide⟩

/-- C3 amended: for every request through the chat endpoint a correlation
id is assigned (caller supplied when truthy, else freshly generated) and
the request is sent to the broker and the id returned, but no
PendingRequest entry is ever inserted into pending_responses on this
path. -/
theorem chat_endpoint_publishes_without_insert (freshUuid agentTopic : String)
    (req : ChatRequest) :
    (invoke_chat_workflow freshUuid agentTopic req).1 =
      [CorrEv.sendBroker agentTopic (if req.uuid ≠ "" then req.uuid else freshUuid)] ∧
    (invoke_chat_workflow freshUuid agentTopic req).1.all
      (fun e => !isInsertPending e) = true ∧
    (invoke_chat_workflow freshUuid agentTopic req).2 =
      (if req.uuid ≠ "" then req.uuid else freshUuid) := by
  refine ⟨rfl, ?_, rfl⟩
  simp [invoke_chat_workflow, isInsertPending]

/-- C4: per message of the response listener, over a pending map whose
keys are truthy correlation ids without duplicates (the only reachable
maps): a message whose uui id is a key pops that entry and resolves its
future exactly when the future is not yet done; a message whose id is
absent, missing or undecodable leaves the map unchanged with no effect;
after resolution the id is gone from the map and a duplicate of the same
message is discarded without effect. -/
theorem response_listener_per_message (pending : PendingMap) (raw : Except String RespMsg)
    (hkeys : ∀ p ∈ pending, p.1 ≠ "")
    (hnodup : (pending.map Prod.fst).Nodup) :
    (∀ k, raw = .ok ⟨some k⟩ → pmContains pending k = true →
      (response_listener_recv pending raw).1 = pmErase pending k ∧
      ((response_listener_recv pending raw).2 = [ListenEv.resolved k] ↔
        pmFind pending k = some FutState.pending) ∧
      pmContains (response_listener_recv pending raw).1 k = false ∧
      response_listener_recv (response_listener_recv pending raw).1 raw =
        ((response_listener_recv pending raw).1, [])) ∧
    (∀ k, raw = .ok ⟨some k⟩ → pmContains pending k = false →
      response_listener_recv pending raw = (pending, [])) ∧
    (raw = .ok ⟨none⟩ → response_listener_recv pending raw = (pending, [])) ∧
    (∀ e, raw = .error e → response_listener_recv pending raw = (pending, [])) := by
  refine ⟨?_, ?_, ?_, ?_⟩
  · intro k hraw hc
    subst hraw
    obtain ⟨p, hp, hpk⟩ := pmContains_exists hc
    have hkne : (k != "") = true := by
      simpa using hpk ▸ hkeys p hp
    have hgone : pmContains (pmErase pending k) k = false := pmContains_pmErase_self hnodup
    cases hf : pmFind pending k with
    | none =>
      simp [response_listener_recv, response_listener_step, hc, hkne, hf, hgone]
    | some st =>
      cases st with
      | pending =>
        simp [response_listener_recv, response_listener_step, hc, hkne, hf, hgone]
      | done =>
        simp [response_listener_recv, response_listener_step, hc, hkne, hf, hgone]
  · intro k hraw hc
    subst hraw
    simp [response_listener_recv, response_listener_step, hc]
  · intro hraw
    subst hraw
    rfl
  · intro e hraw
    subst hraw
    rfl

/-- C4 witness: a concrete pending map and matching message; the entry is
popped and resolved, and the duplicate is discarded. -/
theorem response_listener_per_message_witness :
    (response_listener_recv [("id-1", FutState.pending)] (.ok ⟨some "id-1"⟩)).1 = [] ∧
    (response_listener_recv [("id-1", FutState.pending)] (.ok ⟨some "id-1"⟩)).2 =
      [ListenEv.resolved "id-1"] := by
  have h := response_listener_per_message [("id-1", FutState.pending)] (.ok ⟨some "id-1"⟩)
    (by intro p hp; simp at hp; simp [hp]) (by decide)
  have h1 := h.1 "id-1" rfl (by decide)
  refine ⟨by simpa [pmErase] using h1.1, h1.2.1.mpr (by decide)⟩

/-- C5 counterexample: a non-final message whose unit workflow raises an
exception produces one webhook delivery (the error payload from the
outer handler), not zero as the claim states. -/
theorem room_suggestion_nonfinal_webhook_counterexample :
    process_room_suggestion_message false (.error "boom") (.ok none) =
      [RoomPayload.exceptionError "boom"] ∧
    (process_room_suggestion_message false (.error "boom") (.ok none)).length ≠ 0 := by
  exact ⟨by decide, by decide⟩

/-- C5 amended: a final message whose unit workflow completed issues
exactly one webhook, the combined result when the synthesis succeeds; a
final message whose unit workflow reported an error issues two webhooks
(an empty-suggestion payload first); a non-final message issues zero
webhooks when no exception escapes, and exactly one error webhook when
one does (on either flag value). -/
theorem room_suggestion_webhook_deliveries (isLast : Bool)
    (unit finalw : Except String (Option String)) :
    (∀ e, unit = .error e →
      process_room_suggestion_message isLast unit finalw = [RoomPayload.exceptionError e]) ∧
    (∀ u, unit = .ok u → isLast = false →
      process_room_suggestion_message isLast unit finalw = []) ∧
    (unit = .ok none → isLast = true →
      (process_room_suggestion_message isLast unit finalw).length = 1 ∧
      (finalw = .ok none →
        process_room_suggestion_message isLast unit finalw = [RoomPayload.finalSuggestion])) ∧
    (∀ er, unit = .ok (some er) → isLast = true →
      (process_room_suggestion_message isLast unit finalw).length = 2 ∧
      (process_room_suggestion_message isLast unit finalw).head? =
        some RoomPayload.emptyOnUnitError) := by
  refine ⟨?_, ?_, ?_, ?_⟩
  · intro e he
    subst he
    rfl
  · intro u hu hl
    subst hu; subst hl
    simp [process_room_suggestion_message]
  · intro hu hl
    subst hu; subst hl
    rcases finalw with e | u
    · simp [process_room_suggestion_message]
    · rcases u with _ | er <;> simp [process_room_suggestion_message]
  · intro er hu hl
    subst hu; subst hl
    rcases finalw with e | u
    · simp [process_room_suggestion_message]
    · rcases u with _ | er2 <;> simp [process_room_suggestion_message]

/-- C5 witness: a successful final unit with a successful synthesis gives
exactly the single combined-result webhook; a successful non-final unit
gives none. -/
theorem room_suggestion_webhook_deliveries_witness :
    process_room_suggestion_message true (.ok none) (.ok none) =
      [RoomPayload.finalSuggestion] ∧
    process_room_suggestion_message false (.ok none) (.ok none) = [] := by
  refine ⟨((room_suggestion_webhook_deliveries true (.ok none) (.ok none)).2.2.1 rfl rfl).2 rfl,
    (room_suggestion_webhook_deliveries false (.ok none) (.ok none)).2.1 none rfl rfl⟩

/-- C6 counterexample: in the shutdown sequence of consume the consumer
and producer stops come strictly before the task gather, so the drain
does not precede the release of the broker connections. -/
theorem consume_shutdown_order_counterexample :
    (consume_trace 2).indexOf ConsumeEv.stopConsumer <
      (consume_trace 2).indexOf ConsumeEv.gatherTasks ∧
    (consume_trace 2).indexOf ConsumeEv.stopProducer <
      (consume_trace 2).indexOf ConsumeEv.gatherTasks ∧
    ¬ ((consume_trace 2).indexOf ConsumeEv.gatherTasks <
      (consume_trace 2).indexOf ConsumeEv.stopConsumer) := by
  exact ⟨by decide, by decide, by decide⟩

/-- C6 amended: on shutdown the consume loop stops the consumer, then the
producer, and only afterwards awaits the in-flight handler tasks: the
three shutdown events close every trace in that order, with the drain
last and no stop or gather occurring earlier in the trace. -/
theorem consume_shutdown_stops_before_drain (n : Nat) :
    ∃ pre, consume_trace n =
        pre ++ [ConsumeEv.stopConsumer, ConsumeEv.stopProducer, ConsumeEv.gatherTasks] ∧
      ConsumeEv.stopConsumer ∉ pre ∧ ConsumeEv.stopProducer ∉ pre ∧
      ConsumeEv.gatherTasks ∉ pre := by
  refine ⟨[ConsumeEv.startConsumer, ConsumeEv.startProducer] ++
    (List.range n).map ConsumeEv.spawnTask, ?_, ?_, ?_, ?_⟩
  · simp [consume_trace]
  · simp [List.mem_map]
  · simp [List.mem_map]
  · simp [List.mem_map]

/-- C7: process_message never propagates: an unknown-topic message is
logged and dropped with no handler run, a decode failure is caught and
logged, a handler exception is caught and logged, and in every case the
task completes with the semaphore acquired first and released last. -/
theorem process_message_isolates_failures (cfg : TopicsCfg) (topic : String)
    (decoded : Except String Unit) (chatH analyticsH roomH : Except String Unit) :
    (topic ≠ cfg.agentTopic → topic ≠ cfg.analyticsTopic → topic ≠ cfg.roomSuggestionTopic →
      decoded = .ok () →
      process_message cfg topic decoded chatH analyticsH roomH =
        [DispatchEv.acquire, DispatchEv.warnUnhandled topic, DispatchEv.release]) ∧
    (∀ e, decoded = .error e →
      process_message cfg topic decoded chatH analyticsH roomH =
        [DispatchEv.acquire, DispatchEv.logException e, DispatchEv.release]) ∧
    (∀ e, topic = cfg.agentTopic → decoded = .ok () → chatH = .error e →
      process_message cfg topic decoded chatH analyticsH roomH =
        [DispatchEv.acquire, DispatchEv.logException e, DispatchEv.release]) ∧
    (∃ mid, process_message cfg topic decoded chatH analyticsH roomH =
      DispatchEv.acquire :: (mid ++ [DispatchEv.release])) := by
  refine ⟨?_, ?_, ?_, ?_⟩
  · intro h1 h2 h3 hd
    subst hd
    simp [process_message, process_message_try, h1, h2, h3]
  · intro e hd
    subst hd
    rfl
  · intro e ht hd hc
    subst ht; subst hd; subst hc
    simp [process_message, process_message_try]
  · exact ⟨_, rfl⟩

/-- C7 witness: an unknown topic with a well-formed message is only
warned about; a chat-topic message whose handler raises is caught and
logged. -/
theorem process_message_isolates_failures_witness :
    process_message ⟨"a", "b", "c"⟩ "x" (.ok ()) (.ok ()) (.ok ()) (.ok ()) =
      [DispatchEv.acquire, DispatchEv.warnUnhandled "x", DispatchEv.release] ∧
    process_message ⟨"a", "b", "c"⟩ "a" (.ok ()) (.error "bad") (.ok ()) (.ok ()) =
      [DispatchEv.acquire, DispatchEv.logException "bad", DispatchEv.release] := by
  refine ⟨(process_message_isolates_failures ⟨"a", "b", "c"⟩ "x" (.ok ()) (.ok ())
      (.ok ()) (.ok ())).1 (by decide) (by decide) (by decide) rfl,
    (process_message_isolates_failures ⟨"a", "b", "c"⟩ "a" (.ok ()) (.error "bad")
      (.ok ()) (.ok ())).2.2.1 "bad" rfl rfl rfl⟩

/-- C9: the chat worker retries exactly when the first element of
list_message exists and contains one of the fixed failure phrases; it
invokes the workflow at most MAX_WORKFLOW_RETRIES = 3 times, sleeping
RETRY_DELAY_SECONDS = 2 seconds between consecutive attempts, stopping at
the first response whose first message contains no failure phrase. -/
theorem chat_worker_retry_on_failure_phrases (resp : Nat → WfResponse) :
    (∀ r : WfResponse, should_retry r = true ↔
      ∃ first rest, r.list_message = some (first :: rest) ∧
        ∃ m ∈ WORKFLOW_FAILURE_MESSAGES, strContains first m = true) ∧
    (process_chat_retry resp).1 =
      (if should_retry (resp 0) = false then [ChatEv.invokeWorkflow 0]
       else if should_retry (resp 1) = false then
         [ChatEv.invokeWorkflow 0, ChatEv.sleepSec RETRY_DELAY_SECONDS,
          ChatEv.invokeWorkflow 1]
       else if should_retry (resp 2) = false then
         [ChatEv.invokeWorkflow 0, ChatEv.sleepSec RETRY_DELAY_SECONDS,
          ChatEv.invokeWorkflow 1, ChatEv.sleepSec RETRY_DELAY_SECONDS,
          ChatEv.invokeWorkflow 2]
       else
         [ChatEv.invokeWorkflow 0, ChatEv.sleepSec RETRY_DELAY_SECONDS,
          ChatEv.invokeWorkflow 1, ChatEv.sleepSec RETRY_DELAY_SECONDS,
          ChatEv.invokeWorkflow 2, ChatEv.logRetriesExhausted]) ∧
    (process_chat_retry resp).2 =
      (if should_retry (resp 0) = false then resp 0
       else if should_retry (resp 1) = false then resp 1
       else resp 2) := by
  refine ⟨?_, ?_, ?_⟩
  · intro r
    cases hr : r.list_message with
    | none => simp [should_retry, hr]
    | some l =>
      cases l with
      | nil => simp [should_retry, hr]
      | cons first rest =>
        simp only [should_retry, hr, Bool.and_eq_true, List.any_eq_true]
        constructor
        · rintro ⟨_, m, hm, hc⟩
          exact ⟨first, rest, rfl, m, hm, hc⟩
        · rintro ⟨f, rs, heq, m, hm, hc⟩
          have hinj := List.cons.inj (Option.some.inj heq)
          rw [← hinj.1] at hc
          refine ⟨?_, m, hm, hc⟩
          by_cases hfe : first = ""
          · subst hfe
            exfalso
            simp only [WORKFLOW_FAILURE_MESSAGES, List.mem_cons, List.not_mem_nil,
              or_false] at hm
            rcases hm with rfl | rfl | rfl | rfl <;> exact absurd hc (by decide)
          · simpa using hfe
  · by_cases h0 : should_retry (resp 0) <;> by_cases h1 : should_retry (resp 1) <;>
      by_cases h2 : should_retry (resp 2) <;>
      simp [process_chat_retry, MAX_WORKFLOW_RETRIES, chatRetryGo, h0, h1, h2]
  · by_cases h0 : should_retry (resp 0) <;> by_cases h1 : should_retry (resp 1) <;>
      by_cases h2 : should_retry (resp 2) <;>
      simp [process_chat_retry, MAX_WORKFLOW_RETRIES, chatRetryGo, h0, h1, h2]

/-- C8 (code bug): the InputState schema declares answer with the
operator.add reducer (Append) at its first declaration, but the repeated
declaration of answer later in the class body overrides the annotation,
so the effective policy of answer is Overwrite: a second write replaces
the first instead of concatenating, and no field of the schema is
effectively Append. -/
theorem answer_append_policy_shadowed :
    declaredPolicyFirst inputStateDecls "answer" = some FieldPolicy.append ∧
    effectivePolicy inputStateDecls "answer" = some FieldPolicy.overwrite ∧
    applyPolicy ((effectivePolicy inputStateDecls "answer").getD FieldPolicy.overwrite)
      "first " "second" = "second" ∧
    applyPolicy FieldPolicy.append "first " "second" = "first second" ∧
    ((inputStateDecls.map Prod.fst).all
      (fun k => effectivePolicy inputStateDecls k == some FieldPolicy.overwrite)) = true := by
  exact ⟨by decide, by decide, by decide, by decide, by decide⟩

theorem stGet_append_none {out st : StateMap} {k : String}
    (hout : ∀ p ∈ out, p.1 ≠ k) (hst : stGet st k = none) : stGet (out ++ st) k = none := by
  induction out with
  | nil => simpa using hst
  | cons p rest ih =>
    have hp : (p.1 == k) = false := by
      simpa using hout p (List.mem_cons_self p rest)
    simp only [List.cons_append, stGet, List.find?_cons, hp]
    exact ih (fun q hq => hout q (List.mem_cons_of_mem p hq))

theorem mem_writeSets_not_pf {n : GNode} {out : StateMap}
    (h : out.map Prod.fst ∈ nodeWriteSets n) :
    ∀ p ∈ out, p.1 ≠ "personalize_failed" := by
  intro p hp hcon
  have hmem : "personalize_failed" ∈ out.map Prod.fst :=
    hcon ▸ List.mem_map_of_mem Prod.fst hp
  have hall : ∀ ks ∈ nodeWriteSets n, "personalize_failed" ∉ ks := by
    cases n <;> decide
  exact hall _ h hmem

theorem validOut_not_pf {n : GNode} (hn : n ≠ GNode.validator) {out : StateMap}
    (h : validOut n out) : ∀ p ∈ out, p.1 ≠ "personalize_failed" := by
  cases n with
  | validator => exact absurd rfl hn
  | summarize_content => exact mem_writeSets_not_pf h
  | get_room_info => exact mem_writeSets_not_pf h
  | slang_analysis => exact mem_writeSets_not_pf h
  | orchestrator => exact mem_writeSets_not_pf h
  | personalize => exact mem_writeSets_not_pf h
  | speech_validator => exact mem_writeSets_not_pf h
  | agent_reply_splitter => exact mem_writeSets_not_pf h
  | generate_topic_suggestions => exact mem_writeSets_not_pf h

section ChatRun

open GNode

/-- C10: check_personalize_failure returns the personalize branch exactly
when the personalize_failed field is present and truthy, and the
validator branch otherwise; and in every run of the compiled chat
workflow from an initial state without personalize_failed, with every
node output drawn from the shapes in its source (the absent validator
body left unconstrained), every consultation of the selector returns
validator and the personalize node runs at most once: the loop-back edge
is never taken. -/
theorem personalize_loop_never_taken (oracle : Nat → GNode → StateMap) (init : StateMap)
    (hvalid : ∀ i n, validOut n (oracle i n))
    (hinit : stGet init "personalize_failed" = none) :
    (∀ st : StateMap, check_personalize_failure st = "personalize" ↔
      ∃ v, stGet st "personalize_failed" = some v ∧ truthy v = true) ∧
    (∀ c ∈ (runChat oracle init).consults, c = "validator") ∧
    (runChat oracle init).executed.count GNode.personalize ≤ 1 := by
  have hiff : ∀ st : StateMap, check_personalize_failure st = "personalize" ↔
      ∃ v, stGet st "personalize_failed" = some v ∧ truthy v = true := by
    intro st
    unfold check_personalize_failure
    cases hv : stGet st "personalize_failed" with
    | none => simp [truthy]
    | some v => by_cases ht : truthy v <;> simp [ht]
  have hpf4 : stGet (oracle 3 personalize ++ (oracle 2 orchestrator ++
      (oracle 1 slang_analysis ++ (oracle 0 get_room_info ++
        (oracle 0 summarize_content ++ init))))) "personalize_failed" = none := by
    apply stGet_append_none (validOut_not_pf (by decide) (hvalid 3 personalize))
    apply stGet_append_none (validOut_not_pf (by decide) (hvalid 2 orchestrator))
    apply stGet_append_none (validOut_not_pf (by decide) (hvalid 1 slang_analysis))
    apply stGet_append_none (validOut_not_pf (by decide) (hvalid 0 get_room_info))
    exact stGet_append_none (validOut_not_pf (by decide) (hvalid 0 summarize_content)) hinit
  have hcheck : check_personalize_failure (oracle 3 personalize ++ (oracle 2 orchestrator ++
      (oracle 1 slang_analysis ++ (oracle 0 get_room_info ++
        (oracle 0 summarize_content ++ init))))) = "validator" := by
    unfold check_personalize_failure
    rw [hpf4]
    rfl
  have e1 : runChat oracle init =
      runChatAux oracle 199 1
        (oracle 0 get_room_info ++ (oracle 0 summarize_content ++ init))
        [summarize_content, get_room_info] [slang_analysis]
        [summarize_content, get_room_info] [] := rfl
  have e2 : runChatAux oracle 199 1
        (oracle 0 get_room_info ++ (oracle 0 summarize_content ++ init))
        [summarize_content, get_room_info] [slang_analysis]
        [summarize_content, get_room_info] [] =
      runChatAux oracle 198 2
        (oracle 1 slang_analysis ++
          (oracle 0 get_room_info ++ (oracle 0 summarize_content ++ init)))
        [summarize_content, get_room_info, slang_analysis] [orchestrator]
        [summarize_content, get_room_info, slang_analysis] [] := rfl
  refine ⟨hiff, ?_⟩
  cases hd : determine_next_node (oracle 2 orchestrator ++ (oracle 1 slang_analysis ++
      (oracle 0 get_room_info ++ (oracle 0 summarize_content ++ init)))) with
  | vstr s =>
    by_cases hsp : s = "personalize"
    · subst hsp
      have e3 : runChatAux oracle 198 2
            (oracle 1 slang_analysis ++
              (oracle 0 get_room_info ++ (oracle 0 summarize_content ++ init)))
            [summarize_content, get_room_info, slang_analysis] [orchestrator]
            [summarize_content, get_room_info, slang_analysis] [] =
          runChatAux oracle 197 3
            (oracle 2 orchestrator ++ (oracle 1 slang_analysis ++
              (oracle 0 get_room_info ++ (oracle 0 summarize_content ++ init))))
            [summarize_content, get_room_info, slang_analysis, orchestrator] [personalize]
            [summarize_content, get_room_info, slang_analysis, orchestrator] [] := by
        have hr : routeAll
            (oracle 2 orchestrator ++ (oracle 1 slang_analysis ++
              (oracle 0 get_room_info ++ (oracle 0 summarize_content ++ init))))
            [summarize_content, get_room_info, slang_analysis, orchestrator]
            [orchestrator] = .ok ([], [personalize]) := by
          simp [routeAll, nodeRoute, hd]
          rfl
        simp only [runChatAux, List.foldl_cons, List.foldl_nil, stMerge,
          List.cons_append, List.nil_append]
        rw [hr]
        rfl
      have e4 : runChatAux oracle 197 3
            (oracle 2 orchestrator ++ (oracle 1 slang_analysis ++
              (oracle 0 get_room_info ++ (oracle 0 summarize_content ++ init))))
            [summarize_content, get_room_info, slang_analysis, orchestrator] [personalize]
            [summarize_content, get_room_info, slang_analysis, orchestrator] [] =
          runChatAux oracle 196 4
            (oracle 3 personalize ++ (oracle 2 orchestrator ++ (oracle 1 slang_analysis ++
              (oracle 0 get_room_info ++ (oracle 0 summarize_content ++ init)))))
            [summarize_content, get_room_info, slang_analysis, orchestrator, personalize]
            [validator]
            [summarize_content, get_room_info, slang_analysis, orchestrator, personalize]
            ["validator"] := by
        have hr : routeAll
            (oracle 3 personalize ++ (oracle 2 orchestrator ++ (oracle 1 slang_analysis ++
              (oracle 0 get_room_info ++ (oracle 0 summarize_content ++ init)))))
            [summarize_content, get_room_info, slang_analysis, orchestrator, personalize]
            [personalize] = .ok (["validator"], [validator]) := by
          simp [routeAll, nodeRoute, hcheck]
          rfl
        simp only [runChatAux, List.foldl_cons, List.foldl_nil, stMerge,
          List.cons_append, List.nil_append]
        rw [hr]
        rfl
      have e5 : runChatAux oracle 196 4
            (oracle 3 personalize ++ (oracle 2 orchestrator ++ (oracle 1 slang_analysis ++
              (oracle 0 get_room_info ++ (oracle 0 summarize_content ++ init)))))
            [summarize_content, get_room_info, slang_analysis, orchestrator, personalize]
            [validator]
            [summarize_content, get_room_info, slang_analysis, orchestrator, personalize]
            ["validator"] =
          ⟨["validator"],
           [summarize_content, get_room_info, slang_analysis, orchestrator, personalize,
            validator, speech_validator, agent_reply_splitter], false⟩ := rfl
      rw [e1, e2, e3, e4, e5]
      refine ⟨?_, by decide⟩
      intro c hc
      simpa using hc
    · by_cases hse : s = "__end__"
      · subst hse
        have e3 : runChatAux oracle 198 2
              (oracle 1 slang_analysis ++
                (oracle 0 get_room_info ++ (oracle 0 summarize_content ++ init)))
              [summarize_content, get_room_info, slang_analysis] [orchestrator]
              [summarize_content, get_room_info, slang_analysis] [] =
            ⟨[], [summarize_content, get_room_info, slang_analysis, orchestrator],
             false⟩ := by
          have hr : routeAll
              (oracle 2 orchestrator ++ (oracle 1 slang_analysis ++
                (oracle 0 get_room_info ++ (oracle 0 summarize_content ++ init))))
              [summarize_content, get_room_info, slang_analysis, orchestrator]
              [orchestrator] = .ok ([], []) := by
            simp [routeAll, nodeRoute, hd]
            rfl
          simp only [runChatAux, List.foldl_cons, List.foldl_nil, stMerge,
            List.cons_append, List.nil_append]
          rw [hr]
          rfl
        rw [e1, e2, e3]
        refine ⟨?_, by decide⟩
        intro c hc
        simp at hc
      · have e3 : runChatAux oracle 198 2
              (oracle 1 slang_analysis ++
                (oracle 0 get_room_info ++ (oracle 0 summarize_content ++ init)))
              [summarize_content, get_room_info, slang_analysis] [orchestrator]
              [summarize_content, get_room_info, slang_analysis] [] =
            ⟨[], [summarize_content, get_room_info, slang_analysis, orchestrator],
             true⟩ := by
          have hr : routeAll
              (oracle 2 orchestrator ++ (oracle 1 slang_analysis ++
                (oracle 0 get_room_info ++ (oracle 0 summarize_content ++ init))))
              [summarize_content, get_room_info, slang_analysis, orchestrator]
              [orchestrator] = .error () := by
            simp [routeAll, nodeRoute, hd, hsp, hse]
            rfl
          simp only [runChatAux, List.foldl_cons, List.foldl_nil, stMerge,
            List.cons_append, List.nil_append]
          rw [hr]
        rw [e1, e2, e3]
        refine ⟨?_, by decide⟩
        intro c hc
        simp at hc
  | vnone =>
    have e3 : runChatAux oracle 198 2
          (oracle 1 slang_analysis ++
            (oracle 0 get_room_info ++ (oracle 0 summarize_content ++ init)))
          [summarize_content, get_room_info, slang_analysis] [orchestrator]
          [summarize_content, get_room_info, slang_analysis] [] =
        ⟨[], [summarize_content, get_room_info, slang_analysis, orchestrator], true⟩ := by
      have hr : routeAll
          (oracle 2 orchestrator ++ (oracle 1 slang_analysis ++
            (oracle 0 get_room_info ++ (oracle 0 summarize_content ++ init))))
          [summarize_content, get_room_info, slang_analysis, orchestrator]
          [orchestrator] = .error () := by
        simp [routeAll, nodeRoute, hd]
        rfl
      simp only [runChatAux, List.foldl_cons, List.foldl_nil, stMerge,
        List.cons_append, List.nil_append]
      rw [hr]
    rw [e1, e2, e3]
    refine ⟨?_, by decide⟩
    intro c hc
    simp at hc
  | vbool b =>
    have e3 : runChatAux oracle 198 2
          (oracle 1 slang_analysis ++
            (oracle 0 get_room_info ++ (oracle 0 summarize_content ++ init)))
          [summarize_content, get_room_info, slang_analysis] [orchestrator]
          [summarize_content, get_room_info, slang_analysis] [] =
        ⟨[], [summarize_content, get_room_info, slang_analysis, orchestrator], true⟩ := by
      have hr : routeAll
          (oracle 2 orchestrator ++ (oracle 1 slang_analysis ++
            (oracle 0 get_room_info ++ (oracle 0 summarize_content ++ init))))
          [summarize_content, get_room_info, slang_analysis, orchestrator]
          [orchestrator] = .error () := by
        simp [routeAll, nodeRoute, hd]
        rfl
      simp only [runChatAux, List.foldl_cons, List.foldl_nil, stMerge,
        List.cons_append, List.nil_append]
      rw [hr]
    rw [e1, e2, e3]
    refine ⟨?_, by decide⟩
    intro c hc
    simp at hc
  | vint n =>
    have e3 : runChatAux oracle 198 2
          (oracle 1 slang_analysis ++
            (oracle 0 get_room_info ++ (oracle 0 summarize_content ++ init)))
          [summarize_content, get_room_info, slang_analysis] [orchestrator]
          [summarize_content, get_room_info, slang_analysis] [] =
        ⟨[], [summarize_content, get_room_info, slang_analysis, orchestrator], true⟩ := by
      have hr : routeAll
          (oracle 2 orchestrator ++ (oracle 1 slang_analysis ++
            (oracle 0 get_room_info ++ (oracle 0 summarize_content ++ init))))
          [summarize_content, get_room_info, slang_analysis, orchestrator]
          [orchestrator] = .error () := by
        simp [routeAll, nodeRoute, hd]
        rfl
      simp only [runChatAux, List.foldl_cons, List.foldl_nil, stMerge,
        List.cons_append, List.nil_append]
      rw [hr]
    rw [e1, e2, e3]
    refine ⟨?_, by decide⟩
    intro c hc
    simp at hc

/-- C10 witness: a concrete run down the personalize path consults the
selector once, gets validator, and executes personalize exactly once. -/
theorem personalize_loop_never_taken_witness :
    ((runChat wOracle wInit).consults.all (fun c => c == "validator") = true) ∧
    (runChat wOracle wInit).executed.count GNode.personalize ≤ 1 := by
  have h := personalize_loop_never_taken wOracle wInit
    (by intro i n; cases n <;> simp [wOracle, validOut, nodeWriteSets]) (by decide)
  refine ⟨?_, h.2.2⟩
  rw [List.all_eq_true]
  intro c hc
  simp [h.2.1 c hc]

end ChatRun

end SiscomAgent
